import Mathlib

/-!
Verification of the material-price distribution script (src/material-price.py).

The script is embedded shallowly: every external effect (the OAuth token
endpoint, the S3 download, the Zoho Cliq upload endpoint, temp-file creation
and deletion) is driven by an explicit oracle (`World`), and the orchestrator
(`main`) threads an explicit trace of the calls it performs.  Python
exceptions are modelled with `Except AppError`; Python string operations
(`str.split`, `str.strip`, `os.path.basename`, `os.path.splitext`) are
re-implemented with Python semantics.
-/

namespace MaterialPrice

/-- Python str.isspace relevant characters: the whitespace stripped by
`str.strip()` with no argument (space, tab, newline, carriage return,
vertical tab, form feed). -/
def pyIsSpace (c : Char) : Bool :=
  c == ' ' || c == '\t' || c == '\n' || c == '\r' || c.toNat == 11 || c.toNat == 12

/-- Python `s.strip()`: removes leading and trailing whitespace. -/
def pyStrip (s : String) : String :=
  String.mk (((s.toList.dropWhile pyIsSpace).reverse.dropWhile pyIsSpace).reverse)

/-- Splits a character list at every comma, keeping empty groups (the empty
list yields one empty group, as Python `"".split(",")` yields `[""]`). -/
def splitCommaChars : List Char → List (List Char)
  | [] => [[]]
  | c :: rest =>
    if c = ',' then [] :: splitCommaChars rest
    else
      match splitCommaChars rest with
      | [] => [[c]]
      | g :: gs => (c :: g) :: gs

/-- Python `s.split(",")`: splits on every comma, keeping empty parts. -/
def pySplitComma (s : String) : List String :=
  (splitCommaChars s.toList).map String.mk

/-- Python `os.path.basename`: the part of the path after the last slash. -/
def basename (p : String) : String :=
  String.mk ((p.toList.reverse.takeWhile (fun c => c != '/')).reverse)

/-- Python `os.path.splitext(p)[1]`: the extension (including the dot) of the
last path component, empty when the component has no dot after its leading
dots (so ".bashrc" has no extension). -/
def splitextExt (p : String) : String :=
  let b := (basename p).toList
  if (b.dropWhile (fun c => c == '.')).contains '.' then
    String.mk ('.' :: (b.reverse.takeWhile (fun c => c != '.')).reverse)
  else ""

/-- A JSON value, as produced by `response.json()`. -/
inductive JVal where
  | jstr (s : String)
  | jnum (n : Int)
  | jbool (b : Bool)
  | jnull
  | jarr (xs : List JVal)
  | jobj (fields : List (String × JVal))

/-- Python truthiness of a JSON value (`not v` in the source negates this). -/
def JVal.pyTruthy : JVal → Bool
  | .jstr s => s ≠ ""
  | .jnum n => n ≠ 0
  | .jbool b => b
  | .jnull => false
  | .jarr xs => !xs.isEmpty
  | .jobj fs => !fs.isEmpty

/-- Is this JSON value the string `needle`?  Used for Python `x in list`,
where a non-string element never equals a string needle. -/
def JVal.isStrVal (needle : String) : JVal → Bool
  | .jstr t => t == needle
  | _ => false

/-- Is `needle` a contiguous sublist of the second list?  (Substring test
for Python `needle in s` on strings.) -/
def listHasInfix (needle : List Char) : List Char → Bool
  | [] => needle.isEmpty
  | c :: rest => needle.isPrefixOf (c :: rest) || listHasInfix needle rest

/-- Python `needle in v` for a string needle: key membership for a dict,
element membership for a list, substring for a string, and a `TypeError`
(modelled as `Except.error`) for the remaining scalar types. -/
def pyIn (needle : String) : JVal → Except Unit Bool
  | .jobj fs => .ok (fs.any (fun kv => kv.1 == needle))
  | .jarr xs => .ok (xs.any (JVal.isStrVal needle))
  | .jstr s => .ok (listHasInfix needle.toList s.toList)
  | _ => .error ()

/-- Python `d.get(k)` when `d` may not be a dict: `AttributeError`
(modelled as `Except.error`) on a non-dict, otherwise optional lookup. -/
def JVal.dictGet : JVal → String → Except Unit (Option JVal)
  | .jobj fs, k => .ok (fs.lookup k)
  | _, _ => .error ()

/-- The exceptions the script can raise, abstracted by cause.
In the Python source: `configError` and `authMalformed` are both
`ValueError`; `authHttpError` is the `requests.HTTPError` from
`raise_for_status()`; `storageError` is the generic `Exception` wrapping a
`ClientError`; `networkError` is a `requests` connection-level exception;
`jsonDecodeError` is the error `response.json()` raises on a non-JSON body;
`typeError` is a Python `TypeError`. -/
inductive AppError where
  | configError (msg : String)
  | authHttpError (status : Nat) (body : String)
  | authMalformed (tokenData : JVal)
  | storageError (msg : String)
  | networkError
  | jsonDecodeError
  | typeError

/-- Outcome of one HTTP request, as seen by the script: either a response
(status, raw text, and the JSON parse of the text when it is valid JSON),
or a connection-level failure that `requests` raises as an exception. -/
inductive HttpOutcome where
  | response (status : Nat) (text : String) (body : Option JVal)
  | netError

/-- `get_user_ids` from the source: rejects an unset/empty configuration
string, splits on commas, strips each entry, drops entries that are empty
after stripping, and rejects an empty remainder. -/
def get_user_ids (zohoCliqUserIds : String) : Except AppError (List String) :=
  if zohoCliqUserIds = "" then
    .error (.configError "No user IDs configured. Set ZOHO_CLIQ_USER_IDS environment variable")
  else
    let user_ids := ((pySplitComma zohoCliqUserIds).map pyStrip).filter (fun s => s ≠ "")
    if user_ids = [] then
      .error (.configError "ZOHO_CLIQ_USER_IDS is empty")
    else
      .ok user_ids

/-- The multipart upload request built by `upload_file_to_zoho_cliq`:
`files = \x7b"file": (os.path.basename(file_path), f)\x7d` and
`data = \x7b"comments": json.dumps(comments), "user_id": user_id,
"bot_name": bot_name\x7d`, with header
`Authorization: Zoho-oauthtoken <token>`.  `comments` is kept as the list
that is JSON-encoded; `authToken` is the access-token value interpolated
into the header. -/
structure UploadRequest where
  fileName : String
  userId : String
  botName : String
  comments : List String
  authToken : JVal

/-- One observable action of a run, in program order: the token-endpoint
POST, the S3 `download_file` call, one upload POST, the `os.unlink` call,
and the warning printed when that unlink raises. -/
inductive Event where
  | tokenRequest
  | s3DownloadCall (bucket key localPath : String)
  | uploadCall (req : UploadRequest)
  | unlinkCall (path : String)
  | cleanupWarning (msg : String)

/-- `get_zoho_access_token` from the source, with the HTTP outcome supplied
by the oracle.  Returns the trace of HTTP requests made alongside the
result.  The credential check precedes the POST; `raise_for_status()`
raises for 4xx/5xx; `response.json()` raises on a non-JSON body;
`token_data.get("access_token")` raises on a non-dict; a falsy token
(missing, null, or empty) raises `ValueError` (modelled `authMalformed`).
The token value itself is returned as parsed from JSON. -/
def get_zoho_access_token (refreshToken clientId clientSecret : String)
    (outcome : HttpOutcome) : List Event × Except AppError JVal :=
  if refreshToken = "" ∨ clientId = "" ∨ clientSecret = "" then
    ([], .error (.configError "Missing Zoho OAuth credentials in environment variables"))
  else
    ([.tokenRequest],
      match outcome with
      | .netError => .error .networkError
      | .response status text body =>
        if 400 ≤ status ∧ status < 600 then .error (.authHttpError status text)
        else
          match body with
          | none => .error .jsonDecodeError
          | some tokenData =>
            match tokenData.dictGet "access_token" with
            | .error _ => .error .typeError
            | .ok tokOpt =>
              match tokOpt with
              | none => .error (.authMalformed tokenData)
              | some tok =>
                if tok.pyTruthy then .ok tok else .error (.authMalformed tokenData))

/-- `download_file_from_s3` from the source: delegates to the storage
client (the oracle's download outcome) and wraps a `ClientError` into a
generic exception; on success returns the local path. -/
def download_file_from_s3 (bucket key localPath : String)
    (outcome : Except String Unit) : List Event × Except AppError String :=
  ([.s3DownloadCall bucket key localPath],
    match outcome with
    | .ok _ => .ok localPath
    | .error e => .error (.storageError ("Failed to download from S3: " ++ e)))

/-- `upload_file_to_zoho_cliq` from the source.  The request (with the base
name of `file_path`, the user id and the bot name) is always built and
sent; on a connection-level error the `requests` exception propagates; on
status 200 the parsed JSON body is returned (`response.json()` raising on a
non-JSON body); on any other status the dict
`\x7b"error": response.text, "status_code": response.status_code\x7d` is
returned. -/
def upload_file_to_zoho_cliq (accessToken : JVal) (filePath userId botName : String)
    (comments : Option (List String)) (outcome : HttpOutcome) :
    List Event × Except AppError JVal :=
  let cs := comments.getD ["Server image"]
  let req : UploadRequest :=
    { fileName := basename filePath, userId := userId, botName := botName,
      comments := cs, authToken := accessToken }
  ([.uploadCall req],
    match outcome with
    | .netError => .error .networkError
    | .response status text body =>
      if status = 200 then
        match body with
        | some j => .ok j
        | none => .error .jsonDecodeError
      else
        .ok (.jobj [("error", .jstr text), ("status_code", .jnum status)]))

/-- One element of the `results` list built by `main`:
`\x7b"user_id": user_id, "result": result\x7d`. -/
structure RunEntry where
  user_id : String
  result : JVal

/-- The summary count from `main`:
`sum(1 for r in results if "error" not in r.get("result", \x7b\x7d))`.
Fallible because Python `in` raises `TypeError` on a scalar result. -/
def countSuccessful : List RunEntry → Except Unit Nat
  | [] => .ok 0
  | e :: rest =>
    match pyIn "error" e.result with
    | .error u => .error u
    | .ok b =>
      match countSuccessful rest with
      | .error u => .error u
      | .ok n => .ok (if b then n else n + 1)

/-- The per-recipient upload loop of `main`: uploads to each user id in
order with `comments=["Metal Price Update"]`, appending
`\x7b"user_id": ..., "result": ...\x7d` to `results`; an exception raised by
`upload_file_to_zoho_cliq` (network error, or non-JSON 200 body)
propagates and aborts the remaining iterations.  The oracle supplies the
HTTP outcome of the i-th attempt. -/
def uploadLoop (accessToken : JVal) (filePath botName : String)
    (uploads : Nat → HttpOutcome) :
    List String → Nat → List Event × Except AppError (List RunEntry)
  | [], _ => ([], .ok [])
  | userId :: rest, i =>
    let step := upload_file_to_zoho_cliq accessToken filePath userId botName
      (some ["Metal Price Update"]) (uploads i)
    match step.2 with
    | .error e => (step.1, .error e)
    | .ok result =>
      let next := uploadLoop accessToken filePath botName uploads rest (i + 1)
      (step.1 ++ next.1,
        match next.2 with
        | .error e => .error e
        | .ok entries => .ok ({ user_id := userId, result := result } :: entries))

/-- The process-wide configuration read from environment variables.  A
missing variable is modelled as the empty string: every check the source
makes (`not x`, `if not all([...])`) treats `None` and `""` alike.
`ZOHO_CLIQ_USER_IDS` defaults to `""` and `ZOHO_BOT_NAME` to
"Metal Price Tracker" in the source. -/
structure Config where
  zohoRefreshToken : String
  zohoClientId : String
  zohoClientSecret : String
  zohoCliqUserIds : String
  zohoBotName : String
  awsS3Bucket : String
  awsS3FileKey : String

/-- The oracle for one run: the outcome of each external effect.
`tempStem` is the random name `tempfile.NamedTemporaryFile` picks (the
scratch path is `/tmp/<tempStem><ext>` with the source key's extension);
`uploads i` is the HTTP outcome of the i-th upload attempt;
`unlinkOutcome` is whether `os.unlink` succeeds. -/
structure World where
  tokenOutcome : HttpOutcome
  downloadOutcome : Except String Unit
  tempStem : String
  uploads : Nat → HttpOutcome
  unlinkOutcome : Except String Unit

/-- The observable state of a run: the ordered trace of events, the scratch
path once created, and whether the scratch file exists when the run ends
(normally or by exception). -/
structure RunState where
  trace : List Event
  tempPath : Option String
  tempExists : Bool

/-- `main` from the source, step by step: token refresh, bucket/key check,
temp-file creation, S3 download, recipient resolution, upload loop,
cleanup (an unlink failure is caught and printed as a warning), then the
summary count (whose `TypeError` on a scalar result would propagate).
Returns the final run state and either the `results` list or the
propagated exception. -/
def main (cfg : Config) (w : World) : RunState × Except AppError (List RunEntry) :=
  let tok := get_zoho_access_token cfg.zohoRefreshToken cfg.zohoClientId
    cfg.zohoClientSecret w.tokenOutcome
  let st1 : RunState := { trace := tok.1, tempPath := none, tempExists := false }
  match tok.2 with
  | .error e => (st1, .error e)
  | .ok accessToken =>
    if cfg.awsS3Bucket = "" ∨ cfg.awsS3FileKey = "" then
      (st1, .error (.configError "AWS_S3_BUCKET and AWS_S3_FILE_KEY must be set"))
    else
      let localFilePath := "/tmp/" ++ w.tempStem ++ splitextExt cfg.awsS3FileKey
      let dl := download_file_from_s3 cfg.awsS3Bucket cfg.awsS3FileKey localFilePath
        w.downloadOutcome
      let st2 : RunState :=
        { trace := st1.trace ++ dl.1, tempPath := some localFilePath, tempExists := true }
      match dl.2 with
      | .error e => (st2, .error e)
      | .ok _ =>
        match get_user_ids cfg.zohoCliqUserIds with
        | .error e => (st2, .error e)
        | .ok user_ids =>
          let loop := uploadLoop accessToken localFilePath cfg.zohoBotName w.uploads
            user_ids 0
          let st3 : RunState := { st2 with trace := st2.trace ++ loop.1 }
          match loop.2 with
          | .error e => (st3, .error e)
          | .ok results =>
            let st4 : RunState :=
              match w.unlinkOutcome with
              | .ok _ =>
                { trace := st3.trace ++ [.unlinkCall localFilePath], tempPath := st3.tempPath, tempExists := false }
              | .error m =>
                { st3 with trace := st3.trace ++ [.unlinkCall localFilePath, .cleanupWarning m] }
            match countSuccessful results with
            | .error _ => (st4, .error .typeError)
            | .ok _ => (st4, .ok results)

/-- Is this event an upload POST? -/
def Event.isUploadCall : Event → Bool
  | .uploadCall _ => true
  | _ => false

/-- Is this event the S3 download call? -/
def Event.isDownloadCall : Event → Bool
  | .s3DownloadCall _ _ _ => true
  | _ => false

/-- Is this event the `os.unlink` call? -/
def Event.isUnlinkCall : Event → Bool
  | .unlinkCall _ => true
  | _ => false

/-- Does the trace contain an upload POST? -/
def hasUploadCall (l : List Event) : Bool := l.any Event.isUploadCall

/-- Does the trace contain the S3 download call? -/
def hasDownloadCall (l : List Event) : Bool := l.any Event.isDownloadCall

/-- Does the trace contain an `os.unlink` call? -/
def hasUnlinkCall (l : List Event) : Bool := l.any Event.isUnlinkCall

/-- Number of upload POSTs in a trace. -/
def countUploadCalls (l : List Event) : Nat := l.countP (fun e => e.isUploadCall)

/-- The upload requests of a trace, in order. -/
def uploadRequests : List Event → List UploadRequest
  | [] => []
  | .uploadCall r :: rest => r :: uploadRequests rest
  | _ :: rest => uploadRequests rest

/-- Does a result dict carry the "error" key (a non-dict never does, matching
`JVal.pyTruthy`-free key membership on dicts)? -/
def resultHasErrorKey : JVal → Bool
  | .jobj fs => fs.any (fun kv => kv.1 == "error")
  | _ => false

lemma hasUploadCall_append (l1 l2 : List Event) :
    hasUploadCall (l1 ++ l2) = (hasUploadCall l1 || hasUploadCall l2) := by
  simp [hasUploadCall, List.any_append]

lemma hasDownloadCall_append (l1 l2 : List Event) :
    hasDownloadCall (l1 ++ l2) = (hasDownloadCall l1 || hasDownloadCall l2) := by
  simp [hasDownloadCall, List.any_append]

lemma hasUnlinkCall_append (l1 l2 : List Event) :
    hasUnlinkCall (l1 ++ l2) = (hasUnlinkCall l1 || hasUnlinkCall l2) := by
  simp [hasUnlinkCall, List.any_append]

lemma uploadRequests_append (l1 l2 : List Event) :
    uploadRequests (l1 ++ l2) = uploadRequests l1 ++ uploadRequests l2 := by
  induction l1 with
  | nil => rfl
  | cons e rest ih => cases e <;> simp [uploadRequests, ih]

/-- When a credential is missing, `get_zoho_access_token` raises the
configuration error with an empty trace: no HTTP request happens. -/
lemma get_token_missing_cred (rt cid cs : String) (o : HttpOutcome)
    (h : rt = "" ∨ cid = "" ∨ cs = "") :
    get_zoho_access_token rt cid cs o =
      ([], .error (.configError "Missing Zoho OAuth credentials in environment variables")) := by
  unfold get_zoho_access_token
  simp [h]

/-- The token stage emits no download, upload or unlink events. -/
lemma get_token_trace (rt cid cs : String) (o : HttpOutcome) :
    (get_zoho_access_token rt cid cs o).1 = [] ∨
    (get_zoho_access_token rt cid cs o).1 = [.tokenRequest] := by
  unfold get_zoho_access_token
  split
  · exact Or.inl rfl
  · exact Or.inr rfl

/-- Every event the upload loop emits is an upload POST. -/
lemma uploadLoop_events (tok : JVal) (path bn : String) (ups : Nat → HttpOutcome) :
    ∀ (uids : List String) (i : Nat) (e : Event),
      e ∈ (uploadLoop tok path bn ups uids i).1 → ∃ r, e = .uploadCall r := by
  intro uids
  induction uids with
  | nil => intro i e h; simp [uploadLoop] at h
  | cons uid rest ih =>
    intro i e h
    unfold uploadLoop at h
    dsimp only at h
    split at h
    · simp [upload_file_to_zoho_cliq] at h
      exact ⟨_, h⟩
    · rw [List.mem_append] at h
      rcases h with h | h
      · simp [upload_file_to_zoho_cliq] at h
        exact ⟨_, h⟩
      · exact ih (i + 1) e h

/-- Every request the upload loop sends carries the base name of the local
path, the configured bot name, and a user id from the resolved list. -/
lemma uploadLoop_requests (tok : JVal) (path bn : String) (ups : Nat → HttpOutcome) :
    ∀ (uids : List String) (i : Nat) (r : UploadRequest),
      r ∈ uploadRequests (uploadLoop tok path bn ups uids i).1 →
      r.fileName = basename path ∧ r.botName = bn ∧ r.userId ∈ uids := by
  intro uids
  induction uids with
  | nil => intro i r h; simp [uploadLoop, uploadRequests] at h
  | cons uid rest ih =>
    intro i r h
    unfold uploadLoop at h
    dsimp only at h
    split at h
    · simp [upload_file_to_zoho_cliq, uploadRequests] at h
      subst h
      exact ⟨rfl, rfl, List.mem_cons_self _ _⟩
    · rw [uploadRequests_append] at h
      rw [List.mem_append] at h
      rcases h with h | h
      · simp [upload_file_to_zoho_cliq, uploadRequests] at h
        subst h
        exact ⟨rfl, rfl, List.mem_cons_self _ _⟩
      · obtain ⟨h1, h2, h3⟩ := ih (i + 1) r h
        exact ⟨h1, h2, List.mem_cons_of_mem _ h3⟩

/-- A successful token-endpoint response carrying access token "tok123". -/
def tokenOK : HttpOutcome :=
  .response 200 "token-ok" (some (.jobj [("access_token", .jstr "tok123")]))

/-- A plain successful upload-response body without an "error" key. -/
def okBody : JVal := .jobj [("status", .jstr "ok")]

/-- A 200 upload response with body `okBody`. -/
def resp200 : HttpOutcome := .response 200 "ok-text" (some okBody)

/-- A fully populated configuration with three recipients. -/
def cfgBase : Config :=
  { zohoRefreshToken := "rt", zohoClientId := "ci", zohoClientSecret := "cs",
    zohoCliqUserIds := "u1,u2,u3", zohoBotName := "Metal Price Tracker",
    awsS3Bucket := "bucket", awsS3FileKey := "reports/prices.pdf" }

/-- An oracle where every external effect succeeds. -/
def worldBase : World :=
  { tokenOutcome := tokenOK, downloadOutcome := .ok (), tempStem := "tmpabc",
    uploads := fun _ => resp200, unlinkOutcome := .ok () }

/-- C3: the resolver splits the configuration string on commas, strips each
entry, drops entries empty after stripping, and returns the rest in order
with duplicates preserved; on the spec's example input it yields exactly
["60019117005", "60019117006", "60019117005"]. -/
theorem user_ids_split_trim_filter :
    (∀ cfg ids, get_user_ids cfg = .ok ids →
      ids = ((pySplitComma cfg).map pyStrip).filter (fun s => s ≠ "")) ∧
    get_user_ids "  60019117005 ,60019117006,, 60019117005" =
      .ok ["60019117005", "60019117006", "60019117005"] := by
  constructor
  · intro cfg ids h
    unfold get_user_ids at h
    split at h
    · simp at h
    · dsimp only at h
      split at h
      · simp at h
      · injection h with h2
        exact h2.symm
  · rfl

theorem user_ids_split_trim_filter_witness :
    (["60019117005", "60019117006", "60019117005"] : List String) =
      ((pySplitComma "  60019117005 ,60019117006,, 60019117005").map pyStrip).filter
        (fun s => s ≠ "") :=
  user_ids_split_trim_filter.1 "  60019117005 ,60019117006,, 60019117005"
    ["60019117005", "60019117006", "60019117005"] rfl

/-- C8: the resolver raises the configuration error on an empty input
string, raises the configuration error whenever the split-strip-filter
result is empty (e.g. a string of only commas and whitespace), and never
returns an empty recipient list. -/
theorem user_ids_failure_modes :
    get_user_ids "" =
      .error (.configError "No user IDs configured. Set ZOHO_CLIQ_USER_IDS environment variable") ∧
    (∀ cfg, ((pySplitComma cfg).map pyStrip).filter (fun s => s ≠ "") = [] →
      ∃ msg, get_user_ids cfg = .error (.configError msg)) ∧
    (∀ cfg ids, get_user_ids cfg = .ok ids → ids ≠ []) ∧
    get_user_ids " ,,  , " = .error (.configError "ZOHO_CLIQ_USER_IDS is empty") := by
  refine ⟨rfl, ?_, ?_, rfl⟩
  · intro cfg h
    unfold get_user_ids
    split
    · exact ⟨_, rfl⟩
    · dsimp only
      rw [if_pos h]
      exact ⟨_, rfl⟩
  · intro cfg ids h
    unfold get_user_ids at h
    split at h
    · simp at h
    · dsimp only at h
      split at h
      · simp at h
      next hne =>
        injection h with h2
        subst h2
        exact hne

theorem user_ids_failure_modes_witness :
    (∃ msg, get_user_ids " ,,  , " = .error (.configError msg)) ∧
    (["u1", "u2", "u3"] : List String) ≠ [] :=
  ⟨user_ids_failure_modes.2.1 " ,,  , " rfl,
   user_ids_failure_modes.2.2.1 "u1,u2,u3" ["u1", "u2", "u3"] rfl⟩

/-- C7: the upload function records success solely for HTTP status 200: a
non-200 response (other 2xx included) is recorded as the failure dict
carrying the status code and response body, and a 200 response with a JSON
body is returned as a success; in particular status 201 with a valid JSON
body is still recorded as a failure. -/
theorem upload_success_only_200 :
    (∀ tok path uid bn cs status text body, status ≠ 200 →
      (upload_file_to_zoho_cliq tok path uid bn cs (.response status text body)).2 =
        .ok (.jobj [("error", .jstr text), ("status_code", .jnum status)])) ∧
    (∀ tok path uid bn cs text j,
      (upload_file_to_zoho_cliq tok path uid bn cs (.response 200 text (some j))).2 = .ok j) ∧
    (upload_file_to_zoho_cliq (.jstr "t") "/tmp/x.png" "u9" "Bot" none
        (.response 201 "created" (some (.jobj [("ok", .jstr "yes")])))).2 =
      .ok (.jobj [("error", .jstr "created"), ("status_code", .jnum 201)]) := by
  refine ⟨?_, ?_, rfl⟩
  · intro tok path uid bn cs status text body h
    unfold upload_file_to_zoho_cliq
    simp [h]
  · intro tok path uid bn cs text j
    rfl

theorem upload_success_only_200_witness :
    (upload_file_to_zoho_cliq (.jstr "t") "/tmp/x.png" "u9" "Bot" none
        (.response 500 "boom" none)).2 =
      .ok (.jobj [("error", .jstr "boom"), ("status_code", .jnum 500)]) ∧
    (upload_file_to_zoho_cliq (.jstr "t") "/tmp/x.png" "u9" "Bot" none
        (.response 200 "ok-text" (some okBody))).2 = .ok okBody :=
  ⟨upload_success_only_200.1 (.jstr "t") "/tmp/x.png" "u9" "Bot" none 500 "boom" none
      (by decide),
   upload_success_only_200.2.1 (.jstr "t") "/tmp/x.png" "u9" "Bot" none "ok-text" okBody⟩

/-- C9: on a 200 upload response the returned per-recipient result is the
parsed JSON body, and a 200 response whose body is not valid JSON raises
the JSON-decode exception out of the upload function instead of being
recorded as a result. -/
theorem upload_200_parses_body :
    (∀ tok path uid bn cs text j,
      (upload_file_to_zoho_cliq tok path uid bn cs (.response 200 text (some j))).2 = .ok j) ∧
    (∀ tok path uid bn cs text,
      (upload_file_to_zoho_cliq tok path uid bn cs (.response 200 text none)).2 =
        .error .jsonDecodeError) := by
  exact ⟨fun tok path uid bn cs text j => rfl, fun tok path uid bn cs text => rfl⟩

/-- Any token the refresher returns passed the truthiness guard. -/
lemma get_token_ok_truthy (rt cid cs : String) (o : HttpOutcome) (v : JVal)
    (h : (get_zoho_access_token rt cid cs o).2 = .ok v) : v.pyTruthy = true := by
  unfold get_zoho_access_token at h
  split at h
  · simp at h
  · dsimp only at h
    split at h
    · simp at h
    · split at h
      · simp at h
      · split at h
        · simp at h
        · split at h
          · simp at h
          · split at h
            · simp at h
            · split at h
              next htr =>
                injection h with h2
                subst h2
                exact htr
              · simp at h

/-- C6: with any credential missing the refresher raises the configuration
error with an empty trace (no HTTP request); a returned token string is
never empty; and a 2xx token response whose JSON object lacks an
"access_token" field makes the refresher fail with the malformed-response
auth error instead of returning. -/
theorem token_refresh_contract :
    (∀ rt cid cs o s, (get_zoho_access_token rt cid cs o).2 = .ok (.jstr s) → s ≠ "") ∧
    (∀ rt cid cs o, rt = "" ∨ cid = "" ∨ cs = "" →
      get_zoho_access_token rt cid cs o =
        ([], .error (.configError "Missing Zoho OAuth credentials in environment variables"))) ∧
    (∀ rt cid cs status text fields, 200 ≤ status → status < 300 →
      fields.lookup "access_token" = none →
      rt ≠ "" → cid ≠ "" → cs ≠ "" →
      (get_zoho_access_token rt cid cs (.response status text (some (.jobj fields)))).2 =
        .error (.authMalformed (.jobj fields))) := by
  refine ⟨?_, ?_, ?_⟩
  · intro rt cid cs o s h
    have := get_token_ok_truthy rt cid cs o (.jstr s) h
    simpa [JVal.pyTruthy] using this
  · intro rt cid cs o h
    exact get_token_missing_cred rt cid cs o h
  · intro rt cid cs status text fields h2xx h2xx2 hlook hrt hcid hcs
    unfold get_zoho_access_token
    rw [if_neg (by simp [hrt, hcid, hcs])]
    dsimp only
    rw [if_neg (by omega)]
    simp [JVal.dictGet, hlook]

theorem token_refresh_contract_witness :
    ("tok123" : String) ≠ "" ∧
    get_zoho_access_token "" "ci" "cs" tokenOK =
      ([], .error (.configError "Missing Zoho OAuth credentials in environment variables")) ∧
    (get_zoho_access_token "rt" "ci" "cs"
        (.response 200 "resp" (some (.jobj [("scope", .jstr "all")])))).2 =
      .error (.authMalformed (.jobj [("scope", .jstr "all")])) :=
  ⟨token_refresh_contract.1 "rt" "ci" "cs" tokenOK "tok123" rfl,
   token_refresh_contract.2.1 "" "ci" "cs" tokenOK (Or.inl rfl),
   token_refresh_contract.2.2 "rt" "ci" "cs" 200 "resp" [("scope", .jstr "all")]
     (by decide) (by decide) rfl (by decide) (by decide) (by decide)⟩

/-- C10: the summary counts an upload as successful exactly when its result
dict lacks the "error" key; every non-200 failure record carries "error"
and counts as a failure, and a 200 response whose own body carries "error"
also counts as a failure (3-entry example counts 1 success). -/
theorem summary_counts_error_key :
    (∀ l, (∀ e ∈ l, ∃ fs, e.result = JVal.jobj fs) →
      countSuccessful l = .ok (l.countP (fun e => !resultHasErrorKey e.result))) ∧
    (∀ text status, pyIn "error"
        (.jobj [("error", .jstr text), ("status_code", .jnum status)]) = .ok true) ∧
    countSuccessful
      [{ user_id := "u1", result := .jobj [("status", .jstr "ok")] },
       { user_id := "u2", result := .jobj [("error", .jstr "boom")] },
       { user_id := "u3", result := .jobj [("error", .jstr "denied"), ("status_code", .jnum 403)] }] =
      .ok 1 := by
  refine ⟨?_, ?_, rfl⟩
  · intro l h
    induction l with
    | nil => rfl
    | cons e rest ih =>
      obtain ⟨fs, hfs⟩ := h e (List.mem_cons_self _ _)
      have hrest := ih (fun x hx => h x (List.mem_cons_of_mem _ hx))
      rw [List.countP_cons]
      unfold countSuccessful
      rw [hfs, hrest]
      dsimp only [pyIn]
      by_cases hb : fs.any (fun kv => kv.1 == "error") <;>
        simp [hb, resultHasErrorKey, hfs]
  · intro text status
    rfl

theorem summary_counts_error_key_witness :
    countSuccessful [{ user_id := "u1", result := .jobj [("status", .jstr "ok")] }] =
      .ok (List.countP (fun (e : RunEntry) => !resultHasErrorKey e.result)
        [{ user_id := "u1", result := .jobj [("status", .jstr "ok")] }]) :=
  summary_counts_error_key.1 [{ user_id := "u1", result := .jobj [("status", .jstr "ok")] }]
    (fun e he => ⟨[("status", .jstr "ok")], by rw [List.mem_singleton] at he; rw [he]⟩)

/-- The token stage of `main`, with its trace. -/
def tokenStage (cfg : Config) (w : World) : List Event × Except AppError JVal :=
  get_zoho_access_token cfg.zohoRefreshToken cfg.zohoClientId cfg.zohoClientSecret
    w.tokenOutcome

/-- The scratch path `main` builds: the `NamedTemporaryFile` name with the
source key's extension as suffix. -/
def scratchPath (cfg : Config) (w : World) : String :=
  "/tmp/" ++ w.tempStem ++ splitextExt cfg.awsS3FileKey

/-- The download stage of `main`, with its trace. -/
def downloadStage (cfg : Config) (w : World) : List Event × Except AppError String :=
  download_file_from_s3 cfg.awsS3Bucket cfg.awsS3FileKey (scratchPath cfg w)
    w.downloadOutcome

/-- The upload stage of `main`, with its trace. -/
def loopStage (cfg : Config) (w : World) (tok : JVal) (ids : List String) :
    List Event × Except AppError (List RunEntry) :=
  uploadLoop tok (scratchPath cfg w) cfg.zohoBotName w.uploads ids 0

/-- Complete case analysis of one `main` run: exactly one of the six
control-flow outcomes happens, and in each the final run state and result
are determined. -/
lemma main_cases (cfg : Config) (w : World) :
    (∃ e, (tokenStage cfg w).2 = .error e ∧
      main cfg w = (⟨(tokenStage cfg w).1, none, false⟩, .error e)) ∨
    (∃ tok, (tokenStage cfg w).2 = .ok tok ∧
      (cfg.awsS3Bucket = "" ∨ cfg.awsS3FileKey = "") ∧
      main cfg w = (⟨(tokenStage cfg w).1, none, false⟩,
        .error (.configError "AWS_S3_BUCKET and AWS_S3_FILE_KEY must be set"))) ∨
    (∃ tok e, (tokenStage cfg w).2 = .ok tok ∧
      ¬(cfg.awsS3Bucket = "" ∨ cfg.awsS3FileKey = "") ∧
      (downloadStage cfg w).2 = .error e ∧
      main cfg w = (⟨(tokenStage cfg w).1 ++ (downloadStage cfg w).1,
        some (scratchPath cfg w), true⟩, .error e)) ∨
    (∃ tok p e, (tokenStage cfg w).2 = .ok tok ∧
      ¬(cfg.awsS3Bucket = "" ∨ cfg.awsS3FileKey = "") ∧
      (downloadStage cfg w).2 = .ok p ∧
      get_user_ids cfg.zohoCliqUserIds = .error e ∧
      main cfg w = (⟨(tokenStage cfg w).1 ++ (downloadStage cfg w).1,
        some (scratchPath cfg w), true⟩, .error e)) ∨
    (∃ tok p ids e, (tokenStage cfg w).2 = .ok tok ∧
      ¬(cfg.awsS3Bucket = "" ∨ cfg.awsS3FileKey = "") ∧
      (downloadStage cfg w).2 = .ok p ∧
      get_user_ids cfg.zohoCliqUserIds = .ok ids ∧
      (loopStage cfg w tok ids).2 = .error e ∧
      main cfg w = (⟨(tokenStage cfg w).1 ++ (downloadStage cfg w).1 ++
        (loopStage cfg w tok ids).1, some (scratchPath cfg w), true⟩, .error e)) ∨
    (∃ tok p ids results, (tokenStage cfg w).2 = .ok tok ∧
      ¬(cfg.awsS3Bucket = "" ∨ cfg.awsS3FileKey = "") ∧
      (downloadStage cfg w).2 = .ok p ∧
      get_user_ids cfg.zohoCliqUserIds = .ok ids ∧
      (loopStage cfg w tok ids).2 = .ok results ∧
      (main cfg w).2 = (match countSuccessful results with
        | .error _ => Except.error AppError.typeError
        | .ok _ => Except.ok results) ∧
      ((w.unlinkOutcome = .ok () ∧
        (main cfg w).1 = ⟨(tokenStage cfg w).1 ++ (downloadStage cfg w).1 ++
          (loopStage cfg w tok ids).1 ++ [.unlinkCall (scratchPath cfg w)],
          some (scratchPath cfg w), false⟩) ∨
       (∃ m, w.unlinkOutcome = .error m ∧
        (main cfg w).1 = ⟨(tokenStage cfg w).1 ++ (downloadStage cfg w).1 ++
          (loopStage cfg w tok ids).1 ++
          [.unlinkCall (scratchPath cfg w), .cleanupWarning m],
          some (scratchPath cfg w), true⟩))) := by
  cases hT : (get_zoho_access_token cfg.zohoRefreshToken cfg.zohoClientId
      cfg.zohoClientSecret w.tokenOutcome).2 with
  | error e =>
    exact Or.inl ⟨e, hT, by simp [main, tokenStage, hT]⟩
  | ok tok =>
    by_cases hbk : cfg.awsS3Bucket = "" ∨ cfg.awsS3FileKey = ""
    · refine Or.inr (Or.inl ⟨tok, hT, hbk, ?_⟩)
      simp only [main, tokenStage, hT]
      rw [if_pos hbk]
    · cases hD : (download_file_from_s3 cfg.awsS3Bucket cfg.awsS3FileKey
          ("/tmp/" ++ w.tempStem ++ splitextExt cfg.awsS3FileKey) w.downloadOutcome).2 with
      | error e =>
        refine Or.inr (Or.inr (Or.inl ⟨tok, e, hT, hbk, ?_, ?_⟩))
        · simpa [downloadStage, scratchPath] using hD
        · simp only [main, tokenStage, downloadStage, scratchPath, hT]
          rw [if_neg hbk]
          simp [hD]
      | ok p =>
        cases hU : get_user_ids cfg.zohoCliqUserIds with
        | error e =>
          refine Or.inr (Or.inr (Or.inr (Or.inl ⟨tok, p, e, hT, hbk, ?_, rfl, ?_⟩)))
          · simpa [downloadStage, scratchPath] using hD
          · simp only [main, tokenStage, downloadStage, scratchPath, hT]
            rw [if_neg hbk]
            simp [hD, hU]
        | ok ids =>
          cases hL : (uploadLoop tok ("/tmp/" ++ w.tempStem ++ splitextExt cfg.awsS3FileKey)
              cfg.zohoBotName w.uploads ids 0).2 with
          | error e =>
            refine Or.inr (Or.inr (Or.inr (Or.inr (Or.inl
              ⟨tok, p, ids, e, hT, hbk, ?_, rfl, ?_, ?_⟩))))
            · simpa [downloadStage, scratchPath] using hD
            · simpa [loopStage, scratchPath] using hL
            · simp only [main, tokenStage, downloadStage, loopStage, scratchPath, hT]
              rw [if_neg hbk]
              simp [hD, hU, hL]
          | ok results =>
            refine Or.inr (Or.inr (Or.inr (Or.inr (Or.inr
              ⟨tok, p, ids, results, hT, hbk, ?_, rfl, ?_, ?_, ?_⟩))))
            · simpa [downloadStage, scratchPath] using hD
            · simpa [loopStage, scratchPath] using hL
            · simp only [main, tokenStage, downloadStage, loopStage, scratchPath, hT]
              rw [if_neg hbk]
              cases hC : countSuccessful results with
              | error u => simp [hD, hU, hL, hC]
              | ok n => simp [hD, hU, hL, hC]
            · cases hUL : w.unlinkOutcome with
              | ok u =>
                refine Or.inl ⟨rfl, ?_⟩
                simp only [main, tokenStage, downloadStage, loopStage, scratchPath, hT]
                rw [if_neg hbk]
                cases hC : countSuccessful results with
                | error v => simp [hD, hU, hL, hC, hUL, List.append_assoc]
                | ok n => simp [hD, hU, hL, hC, hUL, List.append_assoc]
              | error m =>
                refine Or.inr ⟨m, rfl, ?_⟩
                simp only [main, tokenStage, downloadStage, loopStage, scratchPath, hT]
                rw [if_neg hbk]
                cases hC : countSuccessful results with
                | error v => simp [hD, hU, hL, hC, hUL, List.append_assoc]
                | ok n => simp [hD, hU, hL, hC, hUL, List.append_assoc]

/-- The token stage emits no upload, download or unlink events. -/
lemma tokenStage_clean (cfg : Config) (w : World) :
    hasUploadCall (tokenStage cfg w).1 = false ∧
    hasDownloadCall (tokenStage cfg w).1 = false ∧
    hasUnlinkCall (tokenStage cfg w).1 = false ∧
    uploadRequests (tokenStage cfg w).1 = [] := by
  have h := get_token_trace cfg.zohoRefreshToken cfg.zohoClientId cfg.zohoClientSecret
    w.tokenOutcome
  rcases h with h | h <;>
    simp [tokenStage, h, hasUploadCall, hasDownloadCall, hasUnlinkCall, uploadRequests,
      Event.isUploadCall, Event.isDownloadCall, Event.isUnlinkCall]

/-- The download stage emits exactly its download call. -/
lemma downloadStage_trace (cfg : Config) (w : World) :
    (downloadStage cfg w).1 =
      [.s3DownloadCall cfg.awsS3Bucket cfg.awsS3FileKey (scratchPath cfg w)] := rfl

/-- The upload stage emits no download or unlink events. -/
lemma loopStage_clean (cfg : Config) (w : World) (tok : JVal) (ids : List String) :
    hasDownloadCall (loopStage cfg w tok ids).1 = false ∧
    hasUnlinkCall (loopStage cfg w tok ids).1 = false := by
  constructor
  · simp only [hasDownloadCall, List.any_eq_false]
    intro e he
    obtain ⟨r, rfl⟩ := uploadLoop_events _ _ _ _ _ _ e he
    simp [Event.isDownloadCall]
  · simp only [hasUnlinkCall, List.any_eq_false]
    intro e he
    obtain ⟨r, rfl⟩ := uploadLoop_events _ _ _ _ _ _ e he
    simp [Event.isUnlinkCall]

/-- A configuration with everything set except the recipient list. -/
def cfgNoUsers : Config :=
  { cfgBase with zohoCliqUserIds := "" }

/-- C2 counterexample: with credentials, bucket and key set but the
recipient list empty, the run does fail with the configuration error, yet
only after the token HTTP request and the S3 download have both been made
— refuting "before any network call is made". -/
theorem config_error_after_network_calls :
    (main cfgNoUsers worldBase).2 =
      .error (.configError "No user IDs configured. Set ZOHO_CLIQ_USER_IDS environment variable") ∧
    (main cfgNoUsers worldBase).1.trace =
      [.tokenRequest, .s3DownloadCall "bucket" "reports/prices.pdf" "/tmp/tmpabc.pdf"] :=
  ⟨rfl, rfl⟩

/-- C2 (amended): each required-setting check aborts the run with the
configuration error before the network call of its own stage, not before
all network calls: missing credentials abort with an empty trace (before
any network call); a missing bucket or key prevents the download and all
uploads (though the token request may already have happened); a recipient
resolution failure prevents all uploads (though token and download calls
may already have happened). -/
theorem config_checks_per_stage :
    (∀ cfg w, cfg.zohoRefreshToken = "" ∨ cfg.zohoClientId = "" ∨ cfg.zohoClientSecret = "" →
      (main cfg w).1.trace = [] ∧
      (main cfg w).2 =
        .error (.configError "Missing Zoho OAuth credentials in environment variables")) ∧
    (∀ cfg w, cfg.awsS3Bucket = "" ∨ cfg.awsS3FileKey = "" →
      hasDownloadCall (main cfg w).1.trace = false ∧
      hasUploadCall (main cfg w).1.trace = false) ∧
    (∀ cfg w tok,
      (tokenStage cfg w).2 = .ok tok →
      cfg.awsS3Bucket = "" ∨ cfg.awsS3FileKey = "" →
      (main cfg w).2 = .error (.configError "AWS_S3_BUCKET and AWS_S3_FILE_KEY must be set")) ∧
    (∀ cfg w msg, get_user_ids cfg.zohoCliqUserIds = .error (.configError msg) →
      hasUploadCall (main cfg w).1.trace = false) := by
  refine ⟨?_, ?_, ?_, ?_⟩
  · intro cfg w h
    have hT := get_token_missing_cred cfg.zohoRefreshToken cfg.zohoClientId
      cfg.zohoClientSecret w.tokenOutcome h
    constructor
    · simp [main, hT]
    · simp [main, hT]
  · intro cfg w h
    rcases main_cases cfg w with ⟨e, hT, hM⟩ | ⟨tok, hT, hbk, hM⟩ | ⟨tok, e, hT, hbk, hM⟩ |
      ⟨tok, p, e, hT, hbk, hM⟩ | ⟨tok, p, ids, e, hT, hbk, hM⟩ |
      ⟨tok, p, ids, results, hT, hbk, hM⟩
    · rw [hM]
      exact ⟨(tokenStage_clean cfg w).2.1, (tokenStage_clean cfg w).1⟩
    · rw [hM]
      exact ⟨(tokenStage_clean cfg w).2.1, (tokenStage_clean cfg w).1⟩
    · exact absurd h hbk
    · exact absurd h hbk
    · exact absurd h hbk
    · exact absurd h hbk
  · intro cfg w tok hTok h
    rcases main_cases cfg w with ⟨e, hT, hM⟩ | ⟨tok2, hT, hbk, hM⟩ | ⟨tok2, e, hT, hbk, hM⟩ |
      ⟨tok2, p, e, hT, hbk, hM⟩ | ⟨tok2, p, ids, e, hT, hbk, hM⟩ |
      ⟨tok2, p, ids, results, hT, hbk, hM⟩
    · rw [hTok] at hT
      exact absurd hT (by simp)
    · rw [hM]
    · exact absurd h hbk
    · exact absurd h hbk
    · exact absurd h hbk
    · exact absurd h hbk
  · intro cfg w msg h
    rcases main_cases cfg w with ⟨e, hT, hM⟩ | ⟨tok, hT, hbk, hM⟩ | ⟨tok, e, hT, hbk, hD, hM⟩ |
      ⟨tok, p, e, hT, hbk, hD, hU, hM⟩ | ⟨tok, p, ids, e, hT, hbk, hD, hU, hL, hM⟩ |
      ⟨tok, p, ids, results, hT, hbk, hD, hU, hL, hM2, hM⟩
    · rw [hM]
      exact (tokenStage_clean cfg w).1
    · rw [hM]
      exact (tokenStage_clean cfg w).1
    · rw [hM]
      dsimp only
      rw [hasUploadCall_append, (tokenStage_clean cfg w).1, downloadStage_trace]
      rfl
    · rw [hM]
      dsimp only
      rw [hasUploadCall_append, (tokenStage_clean cfg w).1, downloadStage_trace]
      rfl
    · rw [hU] at h
      exact absurd h (by simp)
    · rw [hU] at h
      exact absurd h (by simp)

theorem config_checks_per_stage_witness :
    ((main { cfgBase with zohoRefreshToken := "" } worldBase).1.trace = [] ∧
      (main { cfgBase with zohoRefreshToken := "" } worldBase).2 =
        .error (.configError "Missing Zoho OAuth credentials in environment variables")) ∧
    (hasDownloadCall (main { cfgBase with awsS3Bucket := "" } worldBase).1.trace = false ∧
      hasUploadCall (main { cfgBase with awsS3Bucket := "" } worldBase).1.trace = false) ∧
    (main { cfgBase with awsS3Bucket := "" } worldBase).2 =
      .error (.configError "AWS_S3_BUCKET and AWS_S3_FILE_KEY must be set") ∧
    hasUploadCall (main cfgNoUsers worldBase).1.trace = false :=
  ⟨config_checks_per_stage.1 { cfgBase with zohoRefreshToken := "" } worldBase (Or.inl rfl),
   config_checks_per_stage.2.1 { cfgBase with awsS3Bucket := "" } worldBase (Or.inl rfl),
   config_checks_per_stage.2.2.1 { cfgBase with awsS3Bucket := "" } worldBase
     (.jstr "tok123") rfl (Or.inl rfl),
   config_checks_per_stage.2.2.2 cfgNoUsers worldBase
     "No user IDs configured. Set ZOHO_CLIQ_USER_IDS environment variable" rfl⟩

/-- An oracle where the second upload attempt hits a connection-level
network error and the rest return 200. -/
def worldNetErr : World :=
  { worldBase with uploads := fun i => if i = 1 then .netError else resp200 }

/-- An oracle where the second upload attempt returns HTTP 500 and the
rest return 200. -/
def world500 : World :=
  { worldBase with uploads := fun i => if i = 1 then .response 500 "server error" none else resp200 }

/-- The run report of the 3-recipient run where the second upload returns
HTTP 500. -/
def results500 : List RunEntry :=
  [{ user_id := "u1", result := okBody },
   { user_id := "u2", result := .jobj [("error", .jstr "server error"), ("status_code", .jnum 500)] },
   { user_id := "u3", result := okBody }]

/-- C1 counterexample: with 3 resolved recipients, when the second upload
attempt fails with a network error — one of the failure kinds the claim
covers — the exception is raised as a fatal error and aborts the loop:
only two upload requests are ever sent and the run ends with the raised
error instead of a report. -/
theorem upload_network_error_aborts :
    get_user_ids cfgBase.zohoCliqUserIds = .ok ["u1", "u2", "u3"] ∧
    (main cfgBase worldNetErr).2 = .error .networkError ∧
    countUploadCalls (main cfgBase worldNetErr).1.trace = 2 :=
  ⟨rfl, rfl, rfl⟩

/-- C1 (amended): a per-recipient upload failure with a non-200 HTTP
STATUS (4xx/5xx) is recorded as a failure entry carrying the status code
and response body, is never raised as a fatal error, and never aborts the
loop — but a connection-level network error is raised and does abort; in
the 3-recipient run where the second upload returns HTTP 500 the third
recipient is still attempted, the report shows success for recipients 1
and 3 and failure for recipient 2, and the successful count is 2 of 3. -/
theorem upload_http_failures_recorded :
    (∀ tok path uid bn cs status text body, status ≠ 200 →
      (upload_file_to_zoho_cliq tok path uid bn cs (.response status text body)).2 =
        .ok (.jobj [("error", .jstr text), ("status_code", .jnum status)])) ∧
    (main cfgBase world500).2 = .ok results500 ∧
    countUploadCalls (main cfgBase world500).1.trace = 3 ∧
    results500.map (fun e => pyIn "error" e.result) = [.ok false, .ok true, .ok false] ∧
    countSuccessful results500 = .ok 2 := by
  refine ⟨?_, rfl, rfl, rfl, rfl⟩
  intro tok path uid bn cs status text body h
  unfold upload_file_to_zoho_cliq
  simp [h]

theorem upload_http_failures_recorded_witness :
    (upload_file_to_zoho_cliq (.jstr "tok123") "/tmp/tmpabc.pdf" "u2" "Metal Price Tracker"
        (some ["Metal Price Update"]) (.response 500 "server error" none)).2 =
      .ok (.jobj [("error", .jstr "server error"), ("status_code", .jnum 500)]) :=
  upload_http_failures_recorded.1 (.jstr "tok123") "/tmp/tmpabc.pdf" "u2"
    "Metal Price Tracker" (some ["Metal Price Update"]) 500 "server error" none (by decide)

/-- A configuration identical to `cfgBase` but with a single recipient. -/
def cfgOneUser : Config :=
  { cfgBase with zohoCliqUserIds := "u1" }

/-- C4 counterexample: in the run with source object key
"reports/prices.pdf" and temp stem "tmpabc", the upload request carries
file name "tmpabc.pdf" — the scratch file's base name — and not
"prices.pdf", the base name of the source object. -/
theorem upload_filename_not_source_basename :
    (uploadRequests (main cfgOneUser worldBase).1.trace).map (fun r => r.fileName) =
      ["tmpabc.pdf"] ∧
    basename cfgOneUser.awsS3FileKey = "prices.pdf" ∧
    ("tmpabc.pdf" : String) ≠ "prices.pdf" :=
  ⟨rfl, rfl, by decide⟩

/-- C4 (amended): every upload request includes, in the multipart body, the
base name of the LOCAL file path passed to the uploader (in the
orchestrated run this is the scratch file's name, which shares only its
extension with the source object), the recipient id, and the bot name
exactly as configured. -/
theorem upload_request_fields :
    (∀ tok path uid bn cs outcome,
      (upload_file_to_zoho_cliq tok path uid bn cs outcome).1 =
        [.uploadCall { fileName := basename path, userId := uid, botName := bn,
                       comments := cs.getD ["Server image"], authToken := tok }]) ∧
    (∀ cfg w r, r ∈ uploadRequests (main cfg w).1.trace →
      r.botName = cfg.zohoBotName ∧
      r.fileName = basename (scratchPath cfg w) ∧
      ∃ ids, get_user_ids cfg.zohoCliqUserIds = .ok ids ∧ r.userId ∈ ids) := by
  constructor
  · intro tok path uid bn cs outcome
    rfl
  · intro cfg w r hr
    rcases main_cases cfg w with ⟨e, hT, hM⟩ | ⟨tok, hT, hbk, hM⟩ |
      ⟨tok, e, hT, hbk, hD, hM⟩ | ⟨tok, p, e, hT, hbk, hD, hU, hM⟩ |
      ⟨tok, p, ids, e, hT, hbk, hD, hU, hL, hM⟩ |
      ⟨tok, p, ids, results, hT, hbk, hD, hU, hL, hM2, hM⟩
    · rw [hM] at hr
      dsimp only at hr
      rw [(tokenStage_clean cfg w).2.2.2] at hr
      exact absurd hr (List.not_mem_nil r)
    · rw [hM] at hr
      dsimp only at hr
      rw [(tokenStage_clean cfg w).2.2.2] at hr
      exact absurd hr (List.not_mem_nil r)
    · rw [hM] at hr
      dsimp only at hr
      rw [uploadRequests_append, (tokenStage_clean cfg w).2.2.2, downloadStage_trace] at hr
      simp [uploadRequests] at hr
    · rw [hM] at hr
      dsimp only at hr
      rw [uploadRequests_append, (tokenStage_clean cfg w).2.2.2, downloadStage_trace] at hr
      simp [uploadRequests] at hr
    · rw [hM] at hr
      dsimp only at hr
      rw [uploadRequests_append, uploadRequests_append,
        (tokenStage_clean cfg w).2.2.2, downloadStage_trace] at hr
      simp only [uploadRequests, List.nil_append] at hr
      obtain ⟨hf, hb, hm⟩ := uploadLoop_requests tok (scratchPath cfg w) cfg.zohoBotName
        w.uploads ids 0 r (by simpa [loopStage] using hr)
      exact ⟨hb, hf, ids, hU, hm⟩
    · rcases hM with ⟨hUL, hM⟩ | ⟨m, hUL, hM⟩ <;>
      · rw [hM] at hr
        dsimp only at hr
        rw [uploadRequests_append, uploadRequests_append, uploadRequests_append,
          (tokenStage_clean cfg w).2.2.2, downloadStage_trace] at hr
        simp only [uploadRequests, List.nil_append, List.append_nil] at hr
        obtain ⟨hf, hb, hm⟩ := uploadLoop_requests tok (scratchPath cfg w) cfg.zohoBotName
          w.uploads ids 0 r (by simpa [loopStage] using hr)
        exact ⟨hb, hf, ids, hU, hm⟩

/-- The single upload request the `cfgOneUser` run sends. -/
def reqOneUser : UploadRequest :=
  { fileName := "tmpabc.pdf", userId := "u1", botName := "Metal Price Tracker",
    comments := ["Metal Price Update"], authToken := JVal.jstr "tok123" }

theorem upload_request_fields_witness :
    ∃ r, r ∈ uploadRequests (main cfgOneUser worldBase).1.trace ∧
      r.botName = cfgOneUser.zohoBotName ∧
      r.fileName = basename (scratchPath cfgOneUser worldBase) ∧
      ∃ ids, get_user_ids cfgOneUser.zohoCliqUserIds = .ok ids ∧ r.userId ∈ ids := by
  have h : uploadRequests (main cfgOneUser worldBase).1.trace = [reqOneUser] := rfl
  have hmem : reqOneUser ∈ uploadRequests (main cfgOneUser worldBase).1.trace := by
    rw [h]
    exact List.mem_cons_self _ _
  exact ⟨_, hmem, upload_request_fields.2 cfgOneUser worldBase _ hmem⟩

/-- C5: the scratch file is fully written (the download stage) before any
upload attempt, and no upload is attempted when the download fails; in
every run that completes with a report (whatever mix of per-recipient
successes and failures it contains), `os.unlink` is called exactly once,
after the last upload attempt, and the scratch file no longer exists
afterwards — except when the deletion itself fails, in which case a
warning is surfaced, the file remains, and the run report is unaffected
(the run's result never depends on the unlink outcome). -/
theorem scratch_file_lifecycle :
    (∀ cfg w, ∃ pre post, (main cfg w).1.trace = pre ++ post ∧
      hasUploadCall pre = false ∧ hasDownloadCall post = false) ∧
    (∀ cfg w e, w.downloadOutcome = .error e →
      hasUploadCall (main cfg w).1.trace = false) ∧
    (∀ cfg w res, (main cfg w).2 = .ok res → ∃ pre p,
      (main cfg w).1.tempPath = some p ∧ hasUnlinkCall pre = false ∧
      ((w.unlinkOutcome = .ok () ∧ (main cfg w).1.trace = pre ++ [.unlinkCall p] ∧
        (main cfg w).1.tempExists = false) ∨
       (∃ m, w.unlinkOutcome = .error m ∧
        (main cfg w).1.trace = pre ++ [.unlinkCall p, .cleanupWarning m] ∧
        (main cfg w).1.tempExists = true))) ∧
    (∀ (cfg : Config) (w : World) (o1 o2 : Except String Unit),
      (main cfg { w with unlinkOutcome := o1 }).2 =
      (main cfg { w with unlinkOutcome := o2 }).2) := by
  refine ⟨?_, ?_, ?_, ?_⟩
  · intro cfg w
    rcases main_cases cfg w with ⟨e, hT, hM⟩ | ⟨tok, hT, hbk, hM⟩ |
      ⟨tok, e, hT, hbk, hD, hM⟩ | ⟨tok, p, e, hT, hbk, hD, hU, hM⟩ |
      ⟨tok, p, ids, e, hT, hbk, hD, hU, hL, hM⟩ |
      ⟨tok, p, ids, results, hT, hbk, hD, hU, hL, hM2, hM⟩
    · refine ⟨(tokenStage cfg w).1, [], ?_, (tokenStage_clean cfg w).1, rfl⟩
      rw [hM]
      simp
    · refine ⟨(tokenStage cfg w).1, [], ?_, (tokenStage_clean cfg w).1, rfl⟩
      rw [hM]
      simp
    · refine ⟨(tokenStage cfg w).1 ++ (downloadStage cfg w).1, [], ?_, ?_, rfl⟩
      · rw [hM]
        simp
      · rw [hasUploadCall_append, (tokenStage_clean cfg w).1, downloadStage_trace]
        rfl
    · refine ⟨(tokenStage cfg w).1 ++ (downloadStage cfg w).1, [], ?_, ?_, rfl⟩
      · rw [hM]
        simp
      · rw [hasUploadCall_append, (tokenStage_clean cfg w).1, downloadStage_trace]
        rfl
    · refine ⟨(tokenStage cfg w).1 ++ (downloadStage cfg w).1,
        (loopStage cfg w tok ids).1, ?_, ?_, (loopStage_clean cfg w tok ids).1⟩
      · rw [hM]
      · rw [hasUploadCall_append, (tokenStage_clean cfg w).1, downloadStage_trace]
        rfl
    · rcases hM with ⟨hUL, hM⟩ | ⟨m, hUL, hM⟩
      · refine ⟨(tokenStage cfg w).1 ++ (downloadStage cfg w).1,
          (loopStage cfg w tok ids).1 ++ [.unlinkCall (scratchPath cfg w)], ?_, ?_, ?_⟩
        · rw [hM]
          simp [List.append_assoc]
        · rw [hasUploadCall_append, (tokenStage_clean cfg w).1, downloadStage_trace]
          rfl
        · rw [hasDownloadCall_append, (loopStage_clean cfg w tok ids).1]
          rfl
      · refine ⟨(tokenStage cfg w).1 ++ (downloadStage cfg w).1,
          (loopStage cfg w tok ids).1 ++
            [.unlinkCall (scratchPath cfg w), .cleanupWarning m], ?_, ?_, ?_⟩
        · rw [hM]
          simp [List.append_assoc]
        · rw [hasUploadCall_append, (tokenStage_clean cfg w).1, downloadStage_trace]
          rfl
        · rw [hasDownloadCall_append, (loopStage_clean cfg w tok ids).1]
          rfl
  · intro cfg w e hdl
    have hD2 : (downloadStage cfg w).2 =
        .error (.storageError ("Failed to download from S3: " ++ e)) := by
      simp [downloadStage, download_file_from_s3, hdl]
    rcases main_cases cfg w with ⟨e2, hT, hM⟩ | ⟨tok, hT, hbk, hM⟩ |
      ⟨tok, e2, hT, hbk, hD, hM⟩ | ⟨tok, p, e2, hT, hbk, hD, hU, hM⟩ |
      ⟨tok, p, ids, e2, hT, hbk, hD, hU, hL, hM⟩ |
      ⟨tok, p, ids, results, hT, hbk, hD, hU, hL, hM2, hM⟩
    · rw [hM]
      exact (tokenStage_clean cfg w).1
    · rw [hM]
      exact (tokenStage_clean cfg w).1
    · rw [hM]
      dsimp only
      rw [hasUploadCall_append, (tokenStage_clean cfg w).1, downloadStage_trace]
      rfl
    · exact absurd (hD2.symm.trans hD) (by simp)
    · exact absurd (hD2.symm.trans hD) (by simp)
    · exact absurd (hD2.symm.trans hD) (by simp)
  · intro cfg w res hres
    rcases main_cases cfg w with ⟨e, hT, hM⟩ | ⟨tok, hT, hbk, hM⟩ |
      ⟨tok, e, hT, hbk, hD, hM⟩ | ⟨tok, p, e, hT, hbk, hD, hU, hM⟩ |
      ⟨tok, p, ids, e, hT, hbk, hD, hU, hL, hM⟩ |
      ⟨tok, p, ids, results, hT, hbk, hD, hU, hL, hM2, hM⟩
    · rw [hM] at hres
      simp at hres
    · rw [hM] at hres
      simp at hres
    · rw [hM] at hres
      simp at hres
    · rw [hM] at hres
      simp at hres
    · rw [hM] at hres
      simp at hres
    · rcases hM with ⟨hUL, hM⟩ | ⟨m, hUL, hM⟩
      · refine ⟨(tokenStage cfg w).1 ++ (downloadStage cfg w).1 ++
          (loopStage cfg w tok ids).1, scratchPath cfg w, ?_, ?_, Or.inl ⟨hUL, ?_, ?_⟩⟩
        · rw [hM]
        · rw [hasUnlinkCall_append, hasUnlinkCall_append, (tokenStage_clean cfg w).2.2.1,
            (loopStage_clean cfg w tok ids).2, downloadStage_trace]
          rfl
        · rw [hM]
        · rw [hM]
      · refine ⟨(tokenStage cfg w).1 ++ (downloadStage cfg w).1 ++
          (loopStage cfg w tok ids).1, scratchPath cfg w, ?_, ?_,
          Or.inr ⟨m, hUL, ?_, ?_⟩⟩
        · rw [hM]
        · rw [hasUnlinkCall_append, hasUnlinkCall_append, (tokenStage_clean cfg w).2.2.1,
            (loopStage_clean cfg w tok ids).2, downloadStage_trace]
          rfl
        · rw [hM]
        · rw [hM]
  · intro cfg w o1 o2
    simp only [main]
    cases hT : (get_zoho_access_token cfg.zohoRefreshToken cfg.zohoClientId
        cfg.zohoClientSecret w.tokenOutcome).2 with
    | error e => simp [hT]
    | ok tok =>
      by_cases hbk : cfg.awsS3Bucket = "" ∨ cfg.awsS3FileKey = ""
      · simp [hT, hbk]
      · simp only [hT, if_neg hbk]
        cases hD : (download_file_from_s3 cfg.awsS3Bucket cfg.awsS3FileKey
            ("/tmp/" ++ w.tempStem ++ splitextExt cfg.awsS3FileKey) w.downloadOutcome).2 with
        | error e => simp [hD]
        | ok p =>
          cases hU : get_user_ids cfg.zohoCliqUserIds with
          | error e => simp [hD, hU]
          | ok ids =>
            cases hL : (uploadLoop tok ("/tmp/" ++ w.tempStem ++ splitextExt cfg.awsS3FileKey)
                cfg.zohoBotName w.uploads ids 0).2 with
            | error e => simp [hD, hU, hL]
            | ok results =>
              cases hC : countSuccessful results with
              | error u => simp [hD, hU, hL, hC]
              | ok n => simp [hD, hU, hL, hC]

theorem scratch_file_lifecycle_witness :
    (∃ pre p, (main cfgBase worldBase).1.tempPath = some p ∧ hasUnlinkCall pre = false ∧
      ((worldBase.unlinkOutcome = .ok () ∧
        (main cfgBase worldBase).1.trace = pre ++ [.unlinkCall p] ∧
        (main cfgBase worldBase).1.tempExists = false) ∨
       (∃ m, worldBase.unlinkOutcome = .error m ∧
        (main cfgBase worldBase).1.trace = pre ++ [.unlinkCall p, .cleanupWarning m] ∧
        (main cfgBase worldBase).1.tempExists = true))) ∧
    hasUploadCall (main cfgBase
      { worldBase with downloadOutcome := .error "NoSuchKey" }).1.trace = false :=
  ⟨scratch_file_lifecycle.2.2.1 cfgBase worldBase
      [{ user_id := "u1", result := okBody }, { user_id := "u2", result := okBody },
       { user_id := "u3", result := okBody }] rfl,
   scratch_file_lifecycle.2.1 cfgBase
     { worldBase with downloadOutcome := .error "NoSuchKey" } "NoSuchKey" rfl⟩

end MaterialPrice
